import Mathlib

/-!
Verification of the survey-debriefing chatbot (`app.py`, `utils.py`).

The Python data structures are embedded shallowly:
* a Gradio chat transcript `list[list[str | None]]` becomes `List GradioPair`
  with `GradioPair := Option String × Option String`;
* an OpenAI chat message `{"role": ..., "content": ...}` becomes `Msg`
  (the content is optional because `convert_openai_to_gradio` inserts a
  leading user message whose content is Python `None`);
* functions that can raise (`IndexError`, `TypeError`) return `Option`;
  functions that raise `ValueError` return `Except String`.
-/

set_option autoImplicit false

/-- A Gradio chat turn-pair: user slot and bot slot, each `str | None`. -/
abbrev GradioPair := Option String × Option String

/-- An OpenAI-format chat message.  `content` is `Option String` because the
repair path of `convert_openai_to_gradio` inserts a message whose content is
Python `None`. -/
structure Msg where
  role : String
  content : Option String
  deriving DecidableEq, Repr

/-- The messages emitted for one turn-pair by `convert_gradio_to_openai`:
a user message then an assistant message, each skipped when the slot is
`None` or the empty string (`utils.py` lines 113-116). -/
def pairMessages (pair : GradioPair) : List Msg :=
  (match pair.1 with
   | none => []
   | some u => if u = "" then [] else [⟨"user", some u⟩]) ++
  (match pair.2 with
   | none => []
   | some b => if b = "" then [] else [⟨"assistant", some b⟩])

/-- `utils.convert_gradio_to_openai`: flattens the paired transcript into the
role-tagged message list. -/
def convert_gradio_to_openai (chat_history : List GradioPair) : List Msg :=
  chat_history.flatMap pairMessages

/-- The two-at-a-time grouping loop of `convert_openai_to_gradio`
(`for i in range(0, len(messages), 2)`); `none` models the `IndexError`
raised by `messages[i + 1]` when the list length is odd. -/
def pairUp : List Msg → Option (List GradioPair)
  | [] => some []
  | [_] => none
  | a :: b :: rest => (pairUp rest).map (fun r => (a.content, b.content) :: r)

/-- `utils.convert_openai_to_gradio`: synthesizes a leading user message with
content `None` when the first message's role is not `"user"`, then groups the
list two-at-a-time.  `none` models the `IndexError` on the empty list
(`messages[0]`) and on an odd-length grouping. -/
def convert_openai_to_gradio (messages : List Msg) : Option (List GradioPair) :=
  match messages with
  | [] => none
  | m :: rest =>
      if m.role ≠ "user" then pairUp (⟨"user", none⟩ :: m :: rest)
      else pairUp (m :: rest)

/-- A turn-pair is well formed when both slots hold a non-empty string. -/
def wfPair (p : GradioPair) : Bool :=
  match p with
  | (some u, some b) => !(u = "") && !(b = "")
  | _ => false

/-- A transcript is well formed when every turn-pair is. -/
def wfTranscript (T : List GradioPair) : Bool :=
  T.all wfPair

/-- For a well-formed pair the emitted messages are exactly the user message
followed by the assistant message. -/
theorem pairMessages_wf (u b : String) (hu : u ≠ "") (hb : b ≠ "") :
    pairMessages (some u, some b) = [⟨"user", some u⟩, ⟨"assistant", some b⟩] := by
  simp [pairMessages, hu, hb]

/-- On a well-formed transcript the grouping loop inverts the flattening. -/
theorem pairUp_convert (T : List GradioPair) (hwf : wfTranscript T = true) :
    pairUp (convert_gradio_to_openai T) = some T := by
  induction T with
  | nil => rfl
  | cons p rest ih =>
      simp only [wfTranscript, List.all_cons, Bool.and_eq_true] at hwf
      obtain ⟨hp, hrest⟩ := hwf
      match p with
      | (some u, some b) =>
          simp only [wfPair, Bool.and_eq_true, Bool.not_eq_eq_eq_not, Bool.not_true,
            decide_eq_false_iff_not] at hp
          have hflat : convert_gradio_to_openai ((some u, some b) :: rest) =
              ⟨"user", some u⟩ :: ⟨"assistant", some b⟩ :: convert_gradio_to_openai rest := by
            simp [convert_gradio_to_openai, pairMessages_wf u b hp.1 hp.2]
          rw [hflat]
          simp [pairUp, ih (by simpa [wfTranscript] using hrest)]
      | (some _, none) => simp [wfPair] at hp
      | (none, _) => simp [wfPair] at hp

/-- C1.  Amended: for every NON-EMPTY well-formed transcript the two format
adapters are exact inverses: converting to the flat role-tagged list and back
returns the transcript unchanged.  (The empty transcript is well formed yet
`convert_openai_to_gradio` fails on the empty message list, see the
counterexample.) -/
theorem roundtrip_wf_nonempty (T : List GradioPair) (hne : T ≠ [])
    (hwf : wfTranscript T = true) :
    convert_openai_to_gradio (convert_gradio_to_openai T) = some T := by
  match T, hne with
  | p :: rest, _ =>
      simp only [wfTranscript, List.all_cons, Bool.and_eq_true] at hwf
      obtain ⟨hp, hrest⟩ := hwf
      match p with
      | (some u, some b) =>
          simp only [wfPair, Bool.and_eq_true, Bool.not_eq_eq_eq_not, Bool.not_true,
            decide_eq_false_iff_not] at hp
          have hflat : convert_gradio_to_openai ((some u, some b) :: rest) =
              ⟨"user", some u⟩ :: ⟨"assistant", some b⟩ :: convert_gradio_to_openai rest := by
            simp [convert_gradio_to_openai, pairMessages_wf u b hp.1 hp.2]
          have hall : wfTranscript ((some u, some b) :: rest) = true := by
            simp [wfTranscript, wfPair, hp.1, hp.2]
            simpa [wfTranscript] using hrest
          rw [hflat, convert_openai_to_gradio]
          simp only [ne_eq, ite_not, if_true]
          rw [← hflat, pairUp_convert _ hall]
      | (some _, none) => simp [wfPair] at hp
      | (none, _) => simp [wfPair] at hp

/-- C1 witness: the round trip is the identity on a concrete two-pair
well-formed transcript. -/
theorem roundtrip_wf_nonempty_witness :
    convert_openai_to_gradio (convert_gradio_to_openai
        [(some "hi", some "hello"), (some "yes", some "bye")]) =
      some [(some "hi", some "hello"), (some "yes", some "bye")] :=
  roundtrip_wf_nonempty _ (by decide) (by decide)

/-- C1 counterexample: the empty transcript is well formed (vacuously), yet
the round trip does not return it — `convert_openai_to_gradio` fails with an
index error on the empty message list. -/
theorem roundtrip_fails_on_empty :
    wfTranscript [] = true ∧
      convert_openai_to_gradio (convert_gradio_to_openai []) ≠ some [] := by
  exact ⟨rfl, by decide⟩

/-- The grouping loop fails on every odd-length list. -/
theorem pairUp_odd (l : List Msg) (h : l.length % 2 = 1) : pairUp l = none := by
  match l with
  | [] => simp at h
  | [_] => rfl
  | a :: b :: rest =>
      have hrest : rest.length % 2 = 1 := by
        simp only [List.length_cons] at h
        omega
      simp [pairUp, pairUp_odd rest hrest]

/-- C10.  `convert_openai_to_gradio` is partial: whenever the message-list
length, after the conditional insertion of the leading user message, is odd,
the two-at-a-time grouping reads one index past the end and the function
fails (returns `none`, the embedding of `IndexError`). -/
theorem convert_openai_to_gradio_odd (m : Msg) (rest : List Msg)
    (h : (if m.role ≠ "user" then (m :: rest).length + 1
          else (m :: rest).length) % 2 = 1) :
    convert_openai_to_gradio (m :: rest) = none := by
  by_cases hrole : m.role = "user"
  · simp only [hrole, ne_eq, not_true_eq_false, if_false] at h
    simp [convert_openai_to_gradio, hrole, pairUp_odd _ h]
  · simp only [ne_eq, hrole, not_false_eq_true, if_true] at h
    have : (Msg.mk "user" none :: m :: rest).length % 2 = 1 := by
      simpa [List.length_cons] using h
    simp [convert_openai_to_gradio, hrole, pairUp_odd _ this]

/-- C10 witness: a single user message has (post-insertion) length 1, odd,
and conversion indeed fails. -/
theorem convert_openai_to_gradio_odd_witness :
    convert_openai_to_gradio [⟨"user", some "x"⟩] = none :=
  convert_openai_to_gradio_odd ⟨"user", some "x"⟩ [] (by decide)

/-!
Template engine (`utils.PromptTemplate`).  A template string is embedded as
its parse result: the alternating sequence of literal runs and named
replacement fields that Python's `string.Formatter().parse` produces.
`parse_template` collects the field names in order (`self.variables`);
`str.format(**mapping)` substitutes each field from the mapping, raising
`KeyError` (modelled as `none`) when a name is absent.
-/

/-- One parsed segment of a template: a literal run or a named field. -/
inductive TemplatePart where
  | lit (s : String)
  | field (name : String)
  deriving DecidableEq, Repr

/-- A `PromptTemplate` is the parsed template. -/
structure PromptTemplate where
  parts : List TemplatePart
  deriving DecidableEq, Repr

/-- `PromptTemplate.parse_template`: the list of field names, in order of
appearance (duplicates kept, as in the Python list comprehension). -/
def PromptTemplate.variables (t : PromptTemplate) : List String :=
  t.parts.filterMap (fun p =>
    match p with
    | .lit _ => none
    | .field n => some n)

/-- Python dict lookup on the embedded mapping (an association list with the
dict's keys, which are unique). -/
def lookupKey (m : List (String × String)) (k : String) : Option String :=
  match m with
  | [] => none
  | (k', v) :: rest => if k' = k then some v else lookupKey rest k

/-- The key list of a mapping (`set(kwargs)` iterates the keys). -/
def keyList (m : List (String × String)) : List String :=
  m.map Prod.fst

/-- Python set equality `set(ks) == set(vs)`: same elements, ignoring order
and multiplicity. -/
def sameKeySet (ks vs : List String) : Bool :=
  ks.all (fun k => vs.contains k) && vs.all (fun v => ks.contains v)

/-- `str.format(**m)` on a parsed template: substitute every field from the
mapping; `none` models the `KeyError` on a missing name. -/
def formatParts : List TemplatePart → List (String × String) → Option String
  | [], _ => some ""
  | .lit s :: rest, m => (formatParts rest m).map (fun r => s ++ r)
  | .field n :: rest, m =>
      match lookupKey m n with
      | none => none
      | some v => (formatParts rest m).map (fun r => v ++ r)

/-- The template text with every field replaced by the mapping's value for
its name (absent names replaced by the empty string; they never occur in the
uses below). -/
def substituteAll : List TemplatePart → List (String × String) → String
  | [], _ => ""
  | .lit s :: rest, m => s ++ substituteAll rest m
  | .field n :: rest, m => (lookupKey m n).getD "" ++ substituteAll rest m

/-- `PromptTemplate.format` called with keyword arguments only (no positional
arguments).  The checks run in the source's order:
1. `kwargs and set(kwargs) != set(self.variables)` → `ValueError`;
2. the positional-count check and dict branch are skipped (`args` empty);
3. `not args and not kwargs and self.variables` → `ValueError`;
4. otherwise `self.template.format(**kwargs)`, `KeyError` → `ValueError`. -/
def PromptTemplate.format_kwargs (t : PromptTemplate)
    (kwargs : List (String × String)) : Except String String :=
  if kwargs ≠ [] ∧ sameKeySet (keyList kwargs) t.variables = false then
    .error "Keyword arguments do not match template variables."
  else if kwargs = [] ∧ t.variables ≠ [] then
    .error "No arguments provided, but template expects variables."
  else
    match formatParts t.parts kwargs with
    | some s => .ok s
    | none => .error "Missing a keyword argument"

/-- `PromptTemplate.format` called with a mapping as the single positional
argument.  The checks run in the source's order:
1. the keyword check is skipped (`kwargs` empty);
2. `args and len(args) != len(self.variables)` with `len(args) == 1` →
   `ValueError` unless the template has exactly one field;
3. the dict branch: key-set mismatch → `ValueError`, else
   `self.template.format(**arg_dict)`. -/
def PromptTemplate.format_dict (t : PromptTemplate)
    (d : List (String × String)) : Except String String :=
  if 1 ≠ t.variables.length then
    .error "Number of arguments does not match the number of template variables."
  else if sameKeySet (keyList d) t.variables = false then
    .error "Dictionary keys do not match template variables."
  else
    match formatParts t.parts d with
    | some s => .ok s
    | none => .error "Missing a keyword argument"

/-- When every field name of the template is a key of the mapping, the
substitution succeeds and equals `substituteAll`. -/
theorem formatParts_eq_substituteAll (parts : List TemplatePart)
    (m : List (String × String))
    (h : ∀ n, (TemplatePart.field n) ∈ parts → (lookupKey m n).isSome) :
    formatParts parts m = some (substituteAll parts m) := by
  induction parts with
  | nil => rfl
  | cons p rest ih =>
      have hrest : ∀ n, (TemplatePart.field n) ∈ rest → (lookupKey m n).isSome :=
        fun n hn => h n (List.mem_cons_of_mem _ hn)
      match p with
      | .lit s => simp [formatParts, substituteAll, ih hrest]
      | .field n =>
          have hn : (lookupKey m n).isSome := h n (List.mem_cons_self _ _)
          match hv : lookupKey m n with
          | none => simp [hv] at hn
          | some v => simp [formatParts, substituteAll, hv, ih hrest]

/-- A field name of the template is an element of `variables`. -/
theorem field_mem_variables (t : PromptTemplate) (n : String)
    (h : (TemplatePart.field n) ∈ t.parts) : n ∈ t.variables := by
  simp only [PromptTemplate.variables, List.mem_filterMap]
  exact ⟨.field n, h, rfl⟩

/-- A key in the key list of a mapping has a successful lookup. -/
theorem lookupKey_isSome_of_mem (m : List (String × String)) (k : String)
    (h : k ∈ keyList m) : (lookupKey m k).isSome := by
  induction m with
  | nil => simp [keyList] at h
  | cons p rest ih =>
      by_cases hk : p.1 = k
      · simp [lookupKey, hk]
      · simp only [keyList, List.map_cons, List.mem_cons] at h
        match h with
        | .inl hh => exact absurd hh.symm hk
        | .inr hh => simpa [lookupKey, hk] using ih (by simpa [keyList] using hh)

/-- C2.  Amended: a single-mapping call whose key set exactly equals the
placeholder set succeeds — provided the template has exactly one placeholder
occurrence.  (With any other placeholder count the positional-count check
`len(args) != len(self.variables)` fires first and raises `ValueError`, see
the counterexample.)  The returned string is the template with each
placeholder replaced by the mapping's value for it. -/
theorem format_dict_ok (t : PromptTemplate) (d : List (String × String))
    (hone : t.variables.length = 1)
    (hkeys : sameKeySet (keyList d) t.variables = true) :
    t.format_dict d = .ok (substituteAll t.parts d) := by
  have hlook : ∀ n, (TemplatePart.field n) ∈ t.parts → (lookupKey d n).isSome := by
    intro n hn
    have hvar : n ∈ t.variables := field_mem_variables t n hn
    have hkey : n ∈ keyList d := by
      simp only [sameKeySet, Bool.and_eq_true, List.all_eq_true] at hkeys
      have := hkeys.2 n hvar
      simpa using this
    exact lookupKey_isSome_of_mem d n hkey
  simp [PromptTemplate.format_dict, hone, hkeys,
    formatParts_eq_substituteAll t.parts d hlook]

/-- C2 witness: a one-placeholder template formatted with the matching
one-key mapping. -/
theorem format_dict_ok_witness :
    PromptTemplate.format_dict ⟨[.lit "Hello ", .field "name", .lit "!"]⟩
        [("name", "World")] = .ok "Hello World!" :=
  format_dict_ok ⟨[.lit "Hello ", .field "name", .lit "!"]⟩ [("name", "World")]
    (by decide) (by decide)

/-- C2 counterexample: a two-placeholder template with a mapping whose key
set exactly equals the placeholder set still raises `ValueError`, because the
positional-count check compares `len(args) == 1` with the two template
variables before the dict branch is reached. -/
theorem format_dict_two_placeholders_fails :
    sameKeySet (keyList [("a", "x"), ("b", "y")])
        (PromptTemplate.variables ⟨[.field "a", .lit " ", .field "b"]⟩) = true ∧
      PromptTemplate.format_dict ⟨[.field "a", .lit " ", .field "b"]⟩
          [("a", "x"), ("b", "y")] =
        .error "Number of arguments does not match the number of template variables." := by
  exact ⟨by decide, by rfl⟩

/-- C5.  For every template with at least one placeholder, a keyword call
whose key set differs from the placeholder set (including the empty call)
raises `ValueError`. -/
theorem format_kwargs_mismatch_error (t : PromptTemplate)
    (kwargs : List (String × String))
    (hvars : t.variables ≠ [])
    (hmismatch : sameKeySet (keyList kwargs) t.variables = false) :
    ∃ e, t.format_kwargs kwargs = .error e := by
  match kwargs with
  | [] =>
      refine ⟨"No arguments provided, but template expects variables.", ?_⟩
      simp [PromptTemplate.format_kwargs, hvars]
  | p :: rest =>
      refine ⟨"Keyword arguments do not match template variables.", ?_⟩
      simp [PromptTemplate.format_kwargs, hmismatch]

/-- C5 witness: a one-placeholder template called with a wrong keyword. -/
theorem format_kwargs_mismatch_error_witness :
    ∃ e, PromptTemplate.format_kwargs ⟨[.field "a"]⟩ [("b", "y")] = .error e :=
  format_kwargs_mismatch_error ⟨[.field "a"]⟩ [("b", "y")] (by decide) (by decide)

/-!
End-of-interview check (`app.interview_end_check`).  Python substring
containment (`x in s`) and removal (`s.replace(x, "")`) are modelled at the
character-list level by executable functions.
-/

/-- Python substring test `pat in s` on character lists: `pat` occurs as a
contiguous run of `s` (the empty pattern occurs in every string). -/
def containsSub : List Char → List Char → Bool
  | [], pat => pat.isEmpty
  | c :: cs, pat => pat.isPrefixOf (c :: cs) || containsSub cs pat

/-- Python `pat in s`. -/
def pyIn (pat s : String) : Bool :=
  containsSub s.data pat.data

/-- Python `s.replace(pat, rep)` for a non-empty `pat`: replace every
occurrence, scanning left to right.  The fuel argument (instantiated with the
length of `s`, which bounds the number of scanning steps) makes the recursion
structural so that concrete instances reduce. -/
def replaceList : Nat → List Char → List Char → List Char → List Char
  | _, [], _, _ => []
  | 0, s, _, _ => s
  | fuel + 1, c :: cs, pat, rep =>
      if pat.isPrefixOf (c :: cs) && !pat.isEmpty then
        rep ++ replaceList fuel (List.drop pat.length (c :: cs)) pat rep
      else
        c :: replaceList fuel cs pat rep

/-- Python `s.replace(pat, rep)` (the app only calls it with the non-empty
sentinel as `pat`). -/
def pyReplace (s pat rep : String) : String :=
  ⟨replaceList s.data.length s.data pat.data rep.data⟩

/-- The Gradio components returned by `interview_end_check`, reduced to the
observable flags: the updated transcript, the visibility of the input
textbox, of the submit button, and of the "Save and Exit" button. -/
structure EndCheckResult where
  chat_history : List GradioPair
  input_visible : Bool
  submit_visible : Bool
  exit_visible : Bool
  deriving DecidableEq, Repr

/-- `app.interview_end_check`: sets `flag` when the transcript length has
reached `limit`; then, if the last bot message contains `end_of_interview`,
strips it from that message and sets `flag`.  The input textbox and submit
button are rebuilt with `visible = not flag`, the exit button with
`visible = flag`.  `none` models the `IndexError` on the empty transcript
(`chat_history[-1]`) and the `TypeError` of `x in None` when the last bot
slot is Python `None`. -/
def interview_end_check (chat_history : List GradioPair) (limit : Nat)
    (end_of_interview : String) : Option EndCheckResult :=
  let flag0 : Bool := decide (limit ≤ chat_history.length)
  match chat_history.getLast? with
  | none => none
  | some p =>
      match p.2 with
      | none => none
      | some b =>
          if pyIn end_of_interview b then
            some ⟨chat_history.dropLast ++
                    [(p.1, some (pyReplace b end_of_interview ""))],
                  false, false, true⟩
          else
            some ⟨chat_history, !flag0, !flag0, flag0⟩

/-- C3.  Whenever the last turn-pair has a bot text containing the sentinel
`"<end_of_survey>"`, `interview_end_check` (at the default limit 20) ends the
interview: the input textbox and submit button are hidden, the exit
affordance is shown, and the returned transcript carries the final bot
message with the sentinel text removed. -/
theorem interview_end_check_sentinel (prior : List GradioPair)
    (u : Option String) (b : String)
    (hb : pyIn "<end_of_survey>" b = true) :
    interview_end_check (prior ++ [(u, some b)]) 20 "<end_of_survey>" =
      some ⟨prior ++ [(u, some (pyReplace b "<end_of_survey>" ""))],
            false, false, true⟩ := by
  simp [interview_end_check, List.getLast?_concat, hb]

/-- C3 witness: the sentinel-carrying final bot message triggers the Ended
state and is displayed with the sentinel stripped. -/
theorem interview_end_check_sentinel_witness :
    interview_end_check
        [(some "And is there anything else?",
          some "Thanks, that is everything.<end_of_survey>")] 20
        "<end_of_survey>" =
      some ⟨[(some "And is there anything else?",
              some "Thanks, that is everything.")],
            false, false, true⟩ := by
  have h := interview_end_check_sentinel []
      (some "And is there anything else?")
      "Thanks, that is everything.<end_of_survey>" (by decide)
  simpa using h

/-- C4.  Amended: for every transcript whose last pair's bot slot holds a
string, the default limit 20 is decisive — a transcript of at least 20 pairs
ends the interview (exit shown, input and submit hidden), and one of at most
19 pairs whose last bot message does not contain the sentinel stays active
(components returned unchanged transcript, input and submit visible, exit
hidden).  (A transcript of 20 pairs whose last bot slot is Python `None`
instead crashes the check, see the counterexample.) -/
theorem interview_end_check_limit :
    (∀ (prior : List GradioPair) (u : Option String) (b : String),
        20 ≤ (prior ++ [(u, some b)]).length →
        ∃ r, interview_end_check (prior ++ [(u, some b)]) 20 "<end_of_survey>" =
              some r ∧
            r.exit_visible = true ∧ r.input_visible = false ∧
            r.submit_visible = false) ∧
    (∀ (prior : List GradioPair) (u : Option String) (b : String),
        (prior ++ [(u, some b)]).length ≤ 19 →
        pyIn "<end_of_survey>" b = false →
        interview_end_check (prior ++ [(u, some b)]) 20 "<end_of_survey>" =
          some ⟨prior ++ [(u, some b)], true, true, false⟩) := by
  constructor
  · intro prior u b hlen
    by_cases hb : pyIn "<end_of_survey>" b = true
    · exact ⟨_, interview_end_check_sentinel prior u b hb, rfl, rfl, rfl⟩
    · refine ⟨⟨prior ++ [(u, some b)], false, false, true⟩, ?_, rfl, rfl, rfl⟩
      have hb' : pyIn "<end_of_survey>" b = false := by
        simpa using hb
      have hlen' : 19 ≤ prior.length := by
        simp only [List.length_append, List.length_cons, List.length_nil] at hlen
        omega
      simp [interview_end_check, List.getLast?_concat, hb', hlen']
  · intro prior u b hlen hb
    have hlen' : prior.length < 19 := by
      simp only [List.length_append, List.length_cons, List.length_nil] at hlen
      omega
    simp [interview_end_check, List.getLast?_concat, hb, hlen']

/-- C4 witness: a 20-pair transcript without the sentinel ends the interview,
and a 19-pair transcript without the sentinel stays active. -/
theorem interview_end_check_limit_witness :
    (∃ r, interview_end_check
            (List.replicate 19 ((some "u" : Option String), some "v") ++
              [(some "u", some "b")]) 20 "<end_of_survey>" = some r ∧
          r.exit_visible = true ∧ r.input_visible = false ∧
          r.submit_visible = false) ∧
      interview_end_check
          (List.replicate 18 ((some "u" : Option String), some "v") ++
            [(some "u", some "b")]) 20 "<end_of_survey>" =
        some ⟨List.replicate 18 ((some "u" : Option String), some "v") ++
                [(some "u", some "b")], true, true, false⟩ :=
  ⟨interview_end_check_limit.1 (List.replicate 19 (some "u", some "v"))
      (some "u") "b" (by decide),
   interview_end_check_limit.2 (List.replicate 18 (some "u", some "v"))
      (some "u") "b" (by decide) (by decide)⟩

/-- C4 counterexample: a 20-pair transcript whose last pair is still pending
(bot slot `None`) does not end the interview — `interview_end_check` fails
with a type error on `"<end_of_survey>" in None` instead of setting the
ended flag. -/
theorem interview_end_check_pending_crash :
    ¬ ∃ r, interview_end_check
            (List.replicate 20 ((some "u" : Option String), (none : Option String)))
            20 "<end_of_survey>" = some r ∧ r.exit_visible = true := by
  decide

/-!
Bot turn (`app.bot_message`).  The function is a generator: it first builds
the completion request, then streams the response into the bot slot of the
pending pair.  Those two phases are embedded separately.
-/

/-- The completion request built by `app.bot_message` (lines 156-162): one
system message, then the flattened history of all pairs before the pending
pair, then one user message with the pending pair's user slot.  `none`
models the `IndexError` of `chat_history[-1]` on an empty transcript. -/
def bot_message_request (chat_history : List GradioPair)
    (system_message : String) : Option (List Msg) :=
  match chat_history.getLast? with
  | none => none
  | some p =>
      some (⟨"system", some system_message⟩ ::
        (convert_gradio_to_openai chat_history.dropLast ++ [⟨"user", p.1⟩]))

/-- C6.  For a transcript whose last pair is the pending user turn, the
completion request is exactly: the system message, then the flattened prior
history, then the pending user message — in that order, with nothing else. -/
theorem bot_message_request_shape (prior : List GradioPair) (u : String)
    (system_message : String) :
    bot_message_request (prior ++ [(some u, none)]) system_message =
      some (⟨"system", some system_message⟩ ::
        (convert_gradio_to_openai prior ++ [⟨"user", some u⟩])) := by
  simp [bot_message_request, List.getLast?_concat]

/-- One streaming step of `app.bot_message`: `if delta:` appends only a
fragment that is neither `None` nor empty. -/
def stream_append (acc : String) (delta : Option String) : String :=
  match delta with
  | none => acc
  | some s => if s = "" then acc else acc ++ s

/-- The transcript after `app.bot_message` finishes streaming: the pending
pair's bot slot is set to `""` and then every truthy fragment is appended in
arrival order.  `none` models the `IndexError` on an empty transcript. -/
def bot_message_stream (chat_history : List GradioPair)
    (deltas : List (Option String)) : Option (List GradioPair) :=
  match chat_history.getLast? with
  | none => none
  | some p =>
      some (chat_history.dropLast ++
        [(p.1, some (deltas.foldl stream_append ""))])

/-- The non-empty fragments of a stream, in arrival order. -/
def nonEmptyFragments (deltas : List (Option String)) : List String :=
  deltas.filterMap (fun d =>
    match d with
    | none => none
    | some s => if s = "" then none else some s)

/-- In-order concatenation of a list of strings. -/
def concatFragments (l : List String) : String :=
  l.foldr (fun s acc => s ++ acc) ""

/-- Folding the streaming step equals prefixing the accumulator to the
concatenation of the non-empty fragments. -/
theorem foldl_stream_append (deltas : List (Option String)) (acc : String) :
    deltas.foldl stream_append acc =
      acc ++ concatFragments (nonEmptyFragments deltas) := by
  induction deltas generalizing acc with
  | nil => simp [nonEmptyFragments, concatFragments]
  | cons d rest ih =>
      match d with
      | none => simp [stream_append, nonEmptyFragments, ih]
      | some s =>
          by_cases hs : s = ""
          · simp [stream_append, nonEmptyFragments, hs, ih]
          · simp only [List.foldl_cons, stream_append, hs, if_false,
              nonEmptyFragments, List.filterMap_cons]
            rw [ih]
            simp [nonEmptyFragments, concatFragments, hs, String.append_assoc]

/-- C9.  After the stream completes, the pending pair's bot slot holds
exactly the in-order concatenation of the non-empty fragments (a string,
never `None`); a stream with no truthy fragment leaves the empty string. -/
theorem bot_message_stream_concat (prior : List GradioPair)
    (u : Option String) (b0 : Option String) (deltas : List (Option String)) :
    bot_message_stream (prior ++ [(u, b0)]) deltas =
      some (prior ++
        [(u, some (concatFragments (nonEmptyFragments deltas)))]) := by
  simp [bot_message_stream, List.getLast?_concat,
    foldl_stream_append deltas "", String.empty_append]

/-!
Logger (`utils.ChatLoggerHandler.record` and `app.log_interaction`).  The
per-session append-only log file is embedded as the list of its records; a
write appends to that list.  The wall-clock timestamp is passed as an
argument.
-/

/-- One line of the per-session `.jsonl` log file. -/
structure LogEntry where
  session : String
  timestamp : String
  role : String
  message : Option String
  deriving DecidableEq, Repr

/-- `utils.ChatLoggerHandler.record`: opens the session's log file in append
mode and writes one record; embedded as appending the entry to the file's
record list. -/
def ChatLoggerHandler.record (log : List LogEntry) (session : String)
    (ts : String) (role : String) (msg : Option String) : List LogEntry :=
  log ++ [⟨session, ts, role, msg⟩]

/-- `app.log_interaction`: records the last pair of interactions — first the
user slot with role `"user"`, then the bot slot with role `"bot"`.  `none`
models the `IndexError` of `chat_history[-1]` on an empty transcript. -/
def log_interaction (log : List LogEntry) (session_id : String)
    (ts_user ts_bot : String) (chat_history : List GradioPair) :
    Option (List LogEntry) :=
  match chat_history.getLast? with
  | none => none
  | some p =>
      some (ChatLoggerHandler.record
              (ChatLoggerHandler.record log session_id ts_user "user" p.1)
              session_id ts_bot "bot" p.2)

/-- C8.  `log_interaction` appends exactly two records for the last pair —
the user record first, then the bot record, each carrying the session id and
its timestamp — leaving every previously written record in place; after two
completed turns U1,B1,U2,B2 logged from the empty file the log holds exactly
those four records in order. -/
theorem log_interaction_appends :
    (∀ (log : List LogEntry) (s t1 t2 : String) (prior : List GradioPair)
        (u b : Option String),
        log_interaction log s t1 t2 (prior ++ [(u, b)]) =
          some (log ++ [⟨s, t1, "user", u⟩, ⟨s, t2, "bot", b⟩])) ∧
    (∀ (s t1 t2 t3 t4 : String) (u1 b1 u2 b2 : Option String),
        (log_interaction [] s t1 t2 [(u1, b1)]).bind
            (fun log1 => log_interaction log1 s t3 t4 [(u1, b1), (u2, b2)]) =
          some [⟨s, t1, "user", u1⟩, ⟨s, t2, "bot", b1⟩,
                ⟨s, t3, "user", u2⟩, ⟨s, t4, "bot", b2⟩]) := by
  constructor
  · intro log s t1 t2 prior u b
    simp [log_interaction, List.getLast?_concat, ChatLoggerHandler.record]
  · intro s t1 t2 t3 t4 u1 b1 u2 b2
    rfl

/-!
Session initializer (`app.initialize_interview`).  The parts that live in
`app.py` — choice selection by Python list indexing with the integer value of
the `response` parameter, and the two template renderings — are embedded
directly.  The two template asset files are not in the repository snapshot,
so they are modelled from the spec.
-/

/-- Python list indexing `xs[i]` for `int` `i`: non-negative indices read
from the front, negative indices from the back; `none` models the
`IndexError` outside `-len(xs) <= i < len(xs)`. -/
def pyListIndex (xs : List String) (i : Int) : Option String :=
  if 0 ≤ i then xs[i.toNat]?
  else if -i ≤ (xs.length : Int) then xs[xs.length - (-i).toNat]? else none

/-- Modelled from the spec: the file `assets/initial_message.txt` is not in
the repository snapshot; per the spec it is a plain-text template for the
user-visible opening message whose single placeholder is the question
wording (`surveyQuestion`). -/
def initial_message_template : PromptTemplate :=
  ⟨[.lit "Let us talk about the survey question: ", .field "surveyQuestion"]⟩

/-- Modelled from the spec: the file `assets/system_message.txt` is not in
the repository snapshot; per the spec it is a plain-text template for the
hidden system instruction whose placeholders are the question wording
(`surveyQuestion`) and the selected response text (`responseVal`). -/
def system_message_template : PromptTemplate :=
  ⟨[.lit "You are interviewing a participant about the question: ",
    .field "surveyQuestion",
    .lit " The participant answered: ",
    .field "responseVal"]⟩

/-- `app.initialize_interview`, from the question record on: selects the
response text by indexing the choice list with the integer value of the
`response` parameter (propagating the `IndexError` as `.error`), then
renders the initial message and the system message from their templates with
keyword arguments.  Returns `(responseText, initialMessage, systemMessage)`. -/
def initialize_interview_model (question_wording : String)
    (choices : List String) (response_id : Int)
    (initial_t system_t : PromptTemplate) :
    Except String (String × String × String) :=
  match pyListIndex choices response_id with
  | none => .error "IndexError: list index out of range"
  | some response_text =>
      match initial_t.format_kwargs [("surveyQuestion", question_wording)] with
      | .error e => .error e
      | .ok initial_message =>
          match system_t.format_kwargs
              [("surveyQuestion", question_wording),
               ("responseVal", response_text)] with
          | .error e => .error e
          | .ok system_message =>
              .ok (response_text, initial_message, system_message)

/-- An index outside the valid Python range makes the selection fail. -/
theorem pyListIndex_invalid (xs : List String) (i : Int)
    (h : (xs.length : Int) ≤ i ∨ i < -(xs.length : Int)) :
    pyListIndex xs i = none := by
  match h with
  | .inl hge =>
      have h0 : 0 ≤ i := le_trans (Int.ofNat_nonneg _) hge
      have hlen : xs.length ≤ i.toNat := by omega
      simp [pyListIndex, h0, List.getElem?_eq_none hlen]
  | .inr hlt =>
      have h0 : ¬ 0 ≤ i := by omega
      have h1 : ¬ -i ≤ (xs.length : Int) := by omega
      simp [pyListIndex, h0, h1]

/-- C7.  Session initialization selects the response text by indexing the
choice list with the integer `response` value and fails whenever that index
is invalid for the list (first conjunct); for choices Low, Medium, High with
response 2 it yields response text "High" and a system message with both the
question wording and "High" substituted in (second conjunct). -/
theorem initialize_interview_model_spec :
    (∀ (q : String) (choices : List String) (i : Int)
        (it st : PromptTemplate),
        (choices.length : Int) ≤ i ∨ i < -(choices.length : Int) →
        initialize_interview_model q choices i it st =
          .error "IndexError: list index out of range") ∧
    (∃ sys,
        initialize_interview_model "How satisfied were you?"
            ["Low", "Medium", "High"] 2
            initial_message_template system_message_template =
          .ok ("High",
               "Let us talk about the survey question: How satisfied were you?",
               sys) ∧
        pyIn "How satisfied were you?" sys = true ∧
        pyIn "High" sys = true) := by
  constructor
  · intro q choices i it st h
    simp [initialize_interview_model, pyListIndex_invalid choices i h]
  · refine ⟨"You are interviewing a participant about the question: " ++
      "How satisfied were you?" ++
      " The participant answered: " ++ "High", ?_, ?_, ?_⟩
    · rfl
    · decide
    · decide

/-- C7 witness: response index 5 is out of range for a two-choice list and
initialization fails. -/
theorem initialize_interview_model_spec_witness :
    initialize_interview_model "Q" ["Yes", "No"] 5
        initial_message_template system_message_template =
      .error "IndexError: list index out of range" :=
  initialize_interview_model_spec.1 "Q" ["Yes", "No"] 5
    initial_message_template system_message_template (by decide)
